import Mathlib

/-!
Shallow embedding of the Mahoot feed generator (a Bluesky feed service).

Tables are modelled as lists of rows, following the schema in
src/db/schema.ts and the constraints declared in src/db/migrations.ts.
Timestamps are modelled at calendar-day granularity as natural numbers:
every ISO timestamp comparison in the source compares either two dates
(YYYY-MM-DD strings, whose lexicographic order is chronological order) or
a timestamp against the bounds of a day, so a day index is sufficient for
the properties under study. SQL aggregate averages are modelled as exact
rationals.
-/

namespace Mahoot

/-- Row of the post table (schema.ts: Post, after migration 003 added author_did). -/
structure Post where
  uri : String
  cid : String
  indexedAt : Nat
  author_did : String
deriving DecidableEq, Repr

/-- Row of the user_preferences table (schema.ts: UserPreferences). -/
structure UserPreferences where
  user_did : String
  daily_post_limit : Int
  default_mahoot_number : Int
  created_at : Nat
  updated_at : Nat
deriving DecidableEq, Repr

/-- Row of the followee_relationships table (schema.ts: FolloweeRelationship). -/
structure FolloweeRelationship where
  user_did : String
  followee_did : String
  mahoot_number : Int
  follow_uri : String
  created_at : Nat
  updated_at : Nat
deriving DecidableEq, Repr

/-- Row of the post_statistics table (schema.ts: PostStatistics). -/
structure PostStatistics where
  post_uri : String
  author_did : String
  viewer_did : String
  viewed_at : Nat
deriving DecidableEq, Repr

/-- Row of the daily_stats table (schema.ts: DailyStats). -/
structure DailyStats where
  user_did : String
  date : Nat
  total_posts_viewed : Int
  followee_count : Int
deriving DecidableEq, Repr

/-- The database: one list of rows per table (sub_state omitted; it only
stores the firehose cursor and no claim touches it). -/
structure DB where
  post : List Post
  user_preferences : List UserPreferences
  followee_relationships : List FolloweeRelationship
  post_statistics : List PostStatistics
  daily_stats : List DailyStats
deriving DecidableEq, Repr

/-- getOrCreateUserPreferences (user-management, lines 39-76): returns the
existing row, or inserts and returns a default row
(daily_post_limit 300, default_mahoot_number 7). -/
def getOrCreateUserPreferences (s : DB) (userDid : String) (now : Nat) :
    UserPreferences × DB :=
  match s.user_preferences.find? (fun r => r.user_did == userDid) with
  | some r => (r, s)
  | none =>
    let r : UserPreferences :=
      { user_did := userDid, daily_post_limit := 300, default_mahoot_number := 7
        created_at := now, updated_at := now }
    (r, { s with user_preferences := s.user_preferences ++ [r] })

/-- getUserFollowees (user-management, lines 184-193): all
followee_relationships rows of the user. -/
def getUserFollowees (s : DB) (userDid : String) : List FolloweeRelationship :=
  s.followee_relationships.filter (fun r => r.user_did == userDid)

/-- getPostsViewedToday (statistics module, lines 210-223): post_statistics
rows of the viewer whose viewed_at falls on the current day. -/
def getPostsViewedToday (s : DB) (viewerDid : String) (today : Nat) :
    List PostStatistics :=
  s.post_statistics.filter (fun r => r.viewer_did == viewerDid && r.viewed_at == today)

/-- trackPostView (statistics module, lines 187-205): INSERT INTO
post_statistics ... ON CONFLICT DO NOTHING. An ON CONFLICT clause fires only
when the insert violates a uniqueness constraint of the table; migration 002
declares post_statistics with no primary key and no unique constraint
(migrations.ts lines 56-62), so the conflict handler can never fire and the
insert appends a row unconditionally. -/
def trackPostView (s : DB) (postUri authorDid viewerDid : String) (now : Nat) : DB :=
  { s with
    post_statistics := s.post_statistics ++
      [{ post_uri := postUri, author_did := authorDid
         viewer_did := viewerDid, viewed_at := now }] }

/-- updateDailyStats (statistics module, lines 284-328): try to insert; the
insert fails exactly when the unique constraint on (user_did, date)
(migrations.ts line 71) is violated, i.e. when a row for that key exists, in
which case the catch branch updates every matching row. -/
def updateDailyStats (s : DB) (userDid : String) (date : Nat)
    (totalPostsViewed followeeCount : Int) : DB :=
  if s.daily_stats.any (fun r => r.user_did == userDid && r.date == date) then
    { s with
      daily_stats := s.daily_stats.map (fun r =>
        if r.user_did == userDid && r.date == date then
          { r with total_posts_viewed := totalPostsViewed
                   followee_count := followeeCount }
        else r) }
  else
    { s with
      daily_stats := s.daily_stats ++
        [{ user_did := userDid, date := date
           total_posts_viewed := totalPostsViewed
           followee_count := followeeCount }] }

/-- getUnviewedPostsByAuthor (statistics module, lines 504-528): posts by the
author with no post_statistics row for this viewer, ordered by indexedAt
descending, limited to the given number of rows. Sorting is modelled as a
stable insertion sort (SQL ORDER BY with ties left in table order). -/
def getUnviewedPostsByAuthor (s : DB) (viewerDid authorDid : String) (limit : Int) :
    List Post :=
  ((s.post.filter (fun p =>
      p.author_did == authorDid &&
      !(s.post_statistics.any (fun r =>
          r.post_uri == p.uri && r.viewer_did == viewerDid)))).insertionSort
    (fun p q => q.indexedAt ≤ p.indexedAt)).take limit.toNat

/-- Ceiling of the exact division a / b for a positive divisor, as computed
by Math.ceil on the floating-point quotient (exact for in-range values). -/
def ceilDivInt (a : Int) (b : Nat) : Int := -(Int.ediv (-a) b)

/-- calculateDefaultMahootNumber (user-management, lines 118-142): with N
followees and daily limit L, returns default_mahoot_number when N = 0 and
min (max 1 (ceil (L / N))) 20 otherwise. Only the returned value is modelled
here; the lazy creation of the preferences row that
getOrCreateUserPreferences may perform is modelled where the feed handler
runs (generateFeed). -/
def calculateDefaultMahootNumber (s : DB) (userDid : String) (now : Nat) : Int :=
  let prefs := (getOrCreateUserPreferences s userDid now).1
  let count := (s.followee_relationships.filter (fun r => r.user_did == userDid)).length
  if count = 0 then prefs.default_mahoot_number
  else min (max 1 (ceilDivInt prefs.daily_post_limit count)) 20

/-- Item accumulated by the mahoot feed handler (MahootFeedItem in
algos/mahoot). The derived display strings (reason, priorityLevel,
isCustomMahoot, timestamp) are functions of the fields kept here and of the
user preferences; they are omitted. -/
structure MahootFeedItem where
  post : String
  author_did : String
  mahoot_number : Int
  posts_viewed_today : Nat
deriving DecidableEq, Repr

/-- Result of the feed handler: cursor plus feed page. The final mapping to
skeleton format (lines 193-210 of the handler) is one-to-one on items. -/
structure FeedResult where
  cursor : Option String
  feed : List MahootFeedItem
deriving DecidableEq, Repr

/-- JavaScript `x || d` on an optional numeric parameter: undefined and 0
are falsy, so both fall back to the default. -/
def jsOrDefault : Option Int → Int → Int
  | none, d => d
  | some l, d => if l = 0 then d else l

/-- Inner loop of the handler (lines 126-166): push each shuffled post onto
the feed, record the view, and break once the page cap is reached. The
counter c is postsViewedFromFolloweeCount, incremented per push. -/
def pushShuffledPosts (uid : String) (f : FolloweeRelationship)
    (postsToShow : Int) (today : Nat) :
    List Post → Nat → List MahootFeedItem → DB → List MahootFeedItem × DB
  | [], _, acc, s => (acc, s)
  | p :: rest, c, acc, s =>
    let item : MahootFeedItem :=
      { post := p.uri, author_did := f.followee_did
        mahoot_number := f.mahoot_number, posts_viewed_today := c }
    let acc2 := acc ++ [item]
    let s2 := trackPostView s p.uri f.followee_did uid today
    if (acc2.length : Int) ≥ postsToShow then (acc2, s2)
    else pushShuffledPosts uid f postsToShow today rest (c + 1) acc2 s2

/-- Outer loop of the handler (lines 74-171): followees in priority order.
The parameter sh is the Fisher-Yates shuffle of lines 118-123: it permutes
the selected posts using Math.random, and is modelled as an arbitrary
list-permuting function (theorems assume it permutes its input).
postsViewedToday is the snapshot read once before the loop (line 51). -/
def processFollowees (sh : List Post → List Post) (uid : String)
    (postsViewedToday : List PostStatistics) (postsToShow : Int) (today : Nat) :
    List FolloweeRelationship → List MahootFeedItem → DB →
    List MahootFeedItem × DB
  | [], acc, s => (acc, s)
  | f :: rest, acc, s =>
    if f.mahoot_number = 0 then
      processFollowees sh uid postsViewedToday postsToShow today rest acc s
    else
      let viewedFromF :=
        (postsViewedToday.filter (fun r => r.author_did == f.followee_did)).length
      if (viewedFromF : Int) ≥ f.mahoot_number then
        processFollowees sh uid postsViewedToday postsToShow today rest acc s
      else
        let remainingFromFollowee : Int := f.mahoot_number - viewedFromF
        let postsToShowFromFollowee : Int :=
          min remainingFromFollowee (postsToShow - acc.length)
        if postsToShowFromFollowee ≤ 0 then
          processFollowees sh uid postsViewedToday postsToShow today rest acc s
        else
          let unviewedPosts :=
            getUnviewedPostsByAuthor s uid f.followee_did (postsToShowFromFollowee * 3)
          if unviewedPosts.length = 0 then
            processFollowees sh uid postsViewedToday postsToShow today rest acc s
          else
            let postsToInclude := unviewedPosts.take postsToShowFromFollowee.toNat
            let shuffledPosts := sh postsToInclude
            let step :=
              pushShuffledPosts uid f postsToShow today shuffledPosts viewedFromF acc s
            if (step.1.length : Int) ≥ postsToShow then step
            else processFollowees sh uid postsViewedToday postsToShow today rest step.1 step.2

/-- The mahoot feed handler (algos/mahoot handler, lines 31-237). sh is the
Fisher-Yates shuffle (lines 118-123); srt is the final recency sort
(lines 173-179), which reorders the accumulated feed by a key parsed out of
each post URI — both are modelled as arbitrary permutation-valued
parameters. A missing requester identity throws the AuthRequired error
before any store access; the thrown outcome is modelled as the result
component being none. -/
def generateFeed (sh : List Post → List Post)
    (srt : List MahootFeedItem → List MahootFeedItem)
    (s : DB) (requesterDid : Option String) (paramsLimit : Option Int)
    (today : Nat) : Option FeedResult × DB :=
  match requesterDid with
  | none => (none, s)
  | some uid =>
    let pr := getOrCreateUserPreferences s uid today
    let userPrefs := pr.1
    let s1 := pr.2
    let followees := getUserFollowees s1 uid
    if followees.length = 0 then
      (some { cursor := none, feed := [] }, s1)
    else
      let postsViewedToday := getPostsViewedToday s1 uid today
      let postsViewedCount : Int := postsViewedToday.length
      if postsViewedCount ≥ userPrefs.daily_post_limit then
        (some { cursor := none, feed := [] }, s1)
      else
        let remainingPosts := userPrefs.daily_post_limit - postsViewedCount
        let postsToShow := min remainingPosts (jsOrDefault paramsLimit 20)
        let sortedFollowees :=
          followees.insertionSort (fun a b => b.mahoot_number ≤ a.mahoot_number)
        let res :=
          processFollowees sh uid postsViewedToday postsToShow today
            sortedFollowees [] s1
        let mahootFeed := srt res.1
        let newTotal := postsViewedCount + (mahootFeed.length : Int)
        let s3 := updateDailyStats res.2 uid today newTotal followees.length
        let cursor :=
          match mahootFeed.getLast? with
          | some lastPost => some (toString today ++ "::" ++ lastPost.post)
          | none => none
        (some { cursor := cursor, feed := mahootFeed }, s3)

/-- Result shape of get30DayRollingStats. SQL AVG is modelled as an exact
rational; Math.round on the followee average rounds half toward positive
infinity. -/
structure RollingStats where
  totalPostsViewed : Int
  averagePostsPerDay : Rat
  followeeCount : Int
  daysWithData : Nat
deriving DecidableEq, Repr

/-- get30DayRollingStats (statistics module, lines 333-363): SUM, AVG and
COUNT over the daily_stats rows of the user with date at least thirty days
back. AVG divides by the number of aggregated rows and is NULL (coalesced
to 0) when there are none. -/
def get30DayRollingStats (s : DB) (userDid : String) (today : Nat) : RollingStats :=
  let rows := s.daily_stats.filter
    (fun r => r.user_did == userDid && decide (today - 30 ≤ r.date))
  let n := rows.length
  let total : Int := (rows.map (fun r => r.total_posts_viewed)).sum
  { totalPostsViewed := total
    averagePostsPerDay := if n = 0 then 0 else (total : Rat) / (n : Rat)
    followeeCount :=
      if n = 0 then 0
      else round (((rows.map (fun r => r.followee_count)).sum : Rat) / (n : Rat))
    daysWithData := n }

/-- Result shape of getPostAuthorStats (statistics module interface
PostAuthorStats). -/
structure PostAuthorStats where
  author_did : String
  viewer_did : String
  posts_viewed_today : Nat
  posts_viewed_this_week : Nat
  posts_viewed_this_month : Nat
  mahoot_number : Int
deriving DecidableEq, Repr

/-- getPostAuthorStats (statistics module, lines 368-422): three windowed
counts over post_statistics (the today window has no upper bound in the
source, only viewed_at at least the start of today) joined with the
mahoot_number of the followee edge, defaulting to 0 when no edge exists. -/
def getPostAuthorStats (s : DB) (viewerDid authorDid : String) (today : Nat) :
    PostAuthorStats :=
  let todayCount := (s.post_statistics.filter (fun r =>
    r.viewer_did == viewerDid && r.author_did == authorDid &&
    decide (today ≤ r.viewed_at))).length
  let weekCount := (s.post_statistics.filter (fun r =>
    r.viewer_did == viewerDid && r.author_did == authorDid &&
    decide (today - 7 ≤ r.viewed_at))).length
  let monthCount := (s.post_statistics.filter (fun r =>
    r.viewer_did == viewerDid && r.author_did == authorDid &&
    decide (today - 30 ≤ r.viewed_at))).length
  let rel := s.followee_relationships.find?
    (fun r => r.user_did == viewerDid && r.followee_did == authorDid)
  { author_did := authorDid, viewer_did := viewerDid
    posts_viewed_today := todayCount
    posts_viewed_this_week := weekCount
    posts_viewed_this_month := monthCount
    mahoot_number :=
      match rel with
      | some r => r.mahoot_number
      | none => 0 }

/-- getAllAuthorStats (statistics module, lines 427-447): per-author stats
for every distinct author the viewer has a post_statistics row for. -/
def getAllAuthorStats (s : DB) (viewerDid : String) (today : Nat) :
    List PostAuthorStats :=
  (((s.post_statistics.filter (fun r => r.viewer_did == viewerDid)).map
      (fun r => r.author_did)).dedup).map
    (fun a => getPostAuthorStats s viewerDid a today)

/-- Number of rows of a post_statistics fragment for a given viewer, author
and day. -/
def countOn (l : List PostStatistics) (v a : String) (d : Nat) : Nat :=
  (l.filter (fun r =>
    r.viewer_did == v && r.author_did == a && r.viewed_at == d)).length

/-- Number of post_statistics rows for a given viewer, author and day. -/
def countViewsOn (s : DB) (viewerDid authorDid : String) (day : Nat) : Nat :=
  countOn s.post_statistics viewerDid authorDid day

/-- Number of rows of a post_statistics fragment for a given viewer and day. -/
def countDay (l : List PostStatistics) (v : String) (d : Nat) : Nat :=
  (l.filter (fun r => r.viewer_did == v && r.viewed_at == d)).length

/-- Number of post_statistics rows for a given viewer on a given day. -/
def countViewsToday (s : DB) (viewerDid : String) (day : Nat) : Nat :=
  (getPostsViewedToday s viewerDid day).length

/-- The DailyStat bookkeeping invariant: every daily_stats row records
exactly the number of view records of that user on that date. -/
def dailyStatsConsistent (s : DB) : Prop :=
  ∀ r ∈ s.daily_stats,
    r.total_posts_viewed = (countViewsToday s r.user_did r.date : Int)

/-! Auxiliary counting lemmas. -/

theorem countOn_append (l1 l2 : List PostStatistics) (v a : String) (d : Nat) :
    countOn (l1 ++ l2) v a d = countOn l1 v a d + countOn l2 v a d := by
  simp [countOn, List.filter_append]

theorem countOn_eq_zero_of (l : List PostStatistics) (v a : String) (d : Nat)
    (h : ∀ r ∈ l, r.author_did ≠ a) : countOn l v a d = 0 := by
  simp only [countOn, List.length_eq_zero, List.filter_eq_nil_iff]
  intro r hr
  simp [h r hr]

theorem countOn_eq_length_of (l : List PostStatistics) (v a : String) (d : Nat)
    (h : ∀ r ∈ l, r.viewer_did = v ∧ r.author_did = a ∧ r.viewed_at = d) :
    countOn l v a d = l.length := by
  simp only [countOn]
  rw [List.filter_eq_self.mpr]
  intro r hr
  obtain ⟨h1, h2, h3⟩ := h r hr
  simp [h1, h2, h3]

theorem countDay_append (l1 l2 : List PostStatistics) (v : String) (d : Nat) :
    countDay (l1 ++ l2) v d = countDay l1 v d + countDay l2 v d := by
  simp [countDay, List.filter_append]

theorem countDay_eq_length_of (l : List PostStatistics) (v : String) (d : Nat)
    (h : ∀ r ∈ l, r.viewer_did = v ∧ r.viewed_at = d) :
    countDay l v d = l.length := by
  simp only [countDay]
  rw [List.filter_eq_self.mpr]
  intro r hr
  obtain ⟨h1, h2⟩ := h r hr
  simp [h1, h2]

theorem countDay_eq_zero_of (l : List PostStatistics) (u0 v : String) (d0 d : Nat)
    (h : ∀ r ∈ l, r.viewer_did = u0 ∧ r.viewed_at = d0)
    (hne : ¬(v = u0 ∧ d = d0)) : countDay l v d = 0 := by
  simp only [countDay, List.length_eq_zero, List.filter_eq_nil_iff]
  intro r hr
  obtain ⟨h1, h2⟩ := h r hr
  subst h1 h2
  intro hc
  simp only [Bool.and_eq_true, beq_iff_eq] at hc
  exact hne ⟨hc.1.symm, hc.2.symm⟩

theorem countViewsToday_eq (s : DB) (v : String) (d : Nat) :
    countViewsToday s v d = countDay s.post_statistics v d := rfl

/-- The per-followee count the handler takes on its snapshot of today's
views equals the per-(viewer, author, day) row count of the database the
snapshot was read from. -/
theorem snapshot_author_count (s : DB) (v a : String) (d : Nat) :
    ((getPostsViewedToday s v d).filter (fun r => r.author_did == a)).length =
      countViewsOn s v a d := by
  simp only [getPostsViewedToday, countViewsOn, countOn, List.filter_filter]
  congr 1
  apply List.filter_congr
  intro r _
  cases hv : r.viewer_did == v <;> cases ha : r.author_did == a <;>
    cases hd : r.viewed_at == d <;> simp [hv, ha, hd]

/-! Characterization of the inner (per-followee) loop. -/

/-- The inner loop appends some prefix of the shuffled posts to the feed and
appends a matching batch of view rows to post_statistics; every appended
item carries the followee as author, every appended row carries this viewer,
this author and today. -/
theorem pushShuffledPosts_spec (uid : String) (f : FolloweeRelationship)
    (P : Int) (today : Nat) :
    ∀ (posts : List Post) (c : Nat) (acc : List MahootFeedItem) (s : DB),
    ∃ its rows,
      (pushShuffledPosts uid f P today posts c acc s).1 = acc ++ its ∧
      (pushShuffledPosts uid f P today posts c acc s).2 =
        { s with post_statistics := s.post_statistics ++ rows } ∧
      rows.length = its.length ∧
      its.length ≤ posts.length ∧
      (∀ it ∈ its, it.author_did = f.followee_did) ∧
      (∀ r ∈ rows, r.viewer_did = uid ∧ r.author_did = f.followee_did ∧
        r.viewed_at = today) := by
  intro posts
  induction posts with
  | nil =>
    intro c acc s
    exact ⟨[], [], by simp [pushShuffledPosts], by simp [pushShuffledPosts],
      rfl, by simp, by simp, by simp⟩
  | cons p rest ih =>
    intro c acc s
    simp only [pushShuffledPosts]
    split
    · exact ⟨[⟨p.uri, f.followee_did, f.mahoot_number, c⟩],
        [⟨p.uri, f.followee_did, uid, today⟩], rfl, by simp [trackPostView],
        rfl, by simp, by simp, by simp⟩
    · obtain ⟨its, rows, h1, h2, h3, h4, h5, h6⟩ :=
        ih (c + 1) (acc ++ [⟨p.uri, f.followee_did, f.mahoot_number, c⟩])
          (trackPostView s p.uri f.followee_did uid today)
      refine ⟨(⟨p.uri, f.followee_did, f.mahoot_number, c⟩ : MahootFeedItem) :: its,
        (⟨p.uri, f.followee_did, uid, today⟩ : PostStatistics) :: rows,
        ?_, ?_, ?_, ?_, ?_, ?_⟩
      · rw [h1]; simp
      · rw [h2]; simp [trackPostView]
      · simp [h3]
      · simpa using Nat.succ_le_succ h4
      · intro it hit
        rcases List.mem_cons.mp hit with h | h
        · simp [h]
        · exact h5 it h
      · intro r hr
        rcases List.mem_cons.mp hr with h | h
        · simp [h]
        · exact h6 r h

/-- When the whole shuffled batch fits under the page cap, every post of the
batch is pushed. -/
theorem pushShuffledPosts_length (uid : String) (f : FolloweeRelationship)
    (P : Int) (today : Nat) :
    ∀ (posts : List Post) (c : Nat) (acc : List MahootFeedItem) (s : DB),
    (acc.length : Int) + posts.length ≤ P →
    (pushShuffledPosts uid f P today posts c acc s).1.length =
      acc.length + posts.length := by
  intro posts
  induction posts with
  | nil => intro c acc s _; simp [pushShuffledPosts]
  | cons p rest ih =>
    intro c acc s h
    simp only [List.length_cons] at h
    simp only [pushShuffledPosts]
    split
    · rename_i hstop
      simp only [List.length_append, List.length_cons, List.length_nil] at hstop ⊢
      push_cast at hstop h
      omega
    · rename_i hstop
      rw [ih (c + 1) _ (trackPostView s p.uri f.followee_did uid today) (by
        simp only [List.length_append, List.length_cons, List.length_nil]
        push_cast at h ⊢
        omega)]
      simp only [List.length_append, List.length_cons, List.length_nil]
      omega

/-! Characterization of the outer (followee) loop. -/

/-- The outer loop appends items to the feed and a matching batch of view
rows to post_statistics; every appended row carries this viewer and today,
and is authored by one of the processed followees. No other table is
touched. -/
theorem processFollowees_spec (sh : List Post → List Post) (uid : String)
    (pvt : List PostStatistics) (P : Int) (today : Nat) :
    ∀ (fs : List FolloweeRelationship) (acc : List MahootFeedItem) (s : DB),
    ∃ its rows,
      (processFollowees sh uid pvt P today fs acc s).1 = acc ++ its ∧
      (processFollowees sh uid pvt P today fs acc s).2 =
        { s with post_statistics := s.post_statistics ++ rows } ∧
      rows.length = its.length ∧
      (∀ r ∈ rows, r.viewer_did = uid ∧ r.viewed_at = today ∧
        r.author_did ∈ fs.map (fun g => g.followee_did)) := by
  intro fs
  induction fs with
  | nil =>
    intro acc s
    exact ⟨[], [], by simp [processFollowees], by simp [processFollowees],
      rfl, by simp⟩
  | cons f rest ih =>
    intro acc s
    obtain ⟨its0, rows0, g1, g2, g3, g4⟩ := ih acc s
    have wk : ∀ r ∈ rows0, r.viewer_did = uid ∧ r.viewed_at = today ∧
        r.author_did ∈ (f :: rest).map (fun g => g.followee_did) := by
      intro r hr
      obtain ⟨a1, a2, a3⟩ := g4 r hr
      refine ⟨a1, a2, ?_⟩
      simp only [List.map_cons, List.mem_cons]
      exact Or.inr a3
    simp only [processFollowees]
    split
    · exact ⟨its0, rows0, g1, g2, g3, wk⟩
    · split
      · exact ⟨its0, rows0, g1, g2, g3, wk⟩
      · split
        · exact ⟨its0, rows0, g1, g2, g3, wk⟩
        · split
          · exact ⟨its0, rows0, g1, g2, g3, wk⟩
          · obtain ⟨its1, rows1, p1, p2, p3, p4, p5, p6⟩ :=
              pushShuffledPosts_spec uid f P today
                (sh ((getUnviewedPostsByAuthor s uid f.followee_did
                  (min (f.mahoot_number -
                    ((pvt.filter (fun r => r.author_did == f.followee_did)).length : Int))
                    (P - (acc.length : Int)) * 3)).take
                  (min (f.mahoot_number -
                    ((pvt.filter (fun r => r.author_did == f.followee_did)).length : Int))
                    (P - (acc.length : Int))).toNat))
                ((pvt.filter (fun r => r.author_did == f.followee_did)).length) acc s
            have hmem1 : ∀ r ∈ rows1, r.viewer_did = uid ∧ r.viewed_at = today ∧
                r.author_did ∈ (f :: rest).map (fun g => g.followee_did) := by
              intro r hr
              obtain ⟨a1, a2, a3⟩ := p6 r hr
              refine ⟨a1, a3, ?_⟩
              simp only [List.map_cons, List.mem_cons]
              exact Or.inl a2
            split
            · exact ⟨its1, rows1, p1, p2, p3, hmem1⟩
            · rw [p1, p2]
              obtain ⟨its2, rows2, q1, q2, q3, q4⟩ :=
                ih (acc ++ its1)
                  { s with post_statistics := s.post_statistics ++ rows1 }
              refine ⟨its1 ++ its2, rows1 ++ rows2, ?_, ?_, ?_, ?_⟩
              · rw [q1, List.append_assoc]
              · rw [q2]
                simp [List.append_assoc]
              · simp [p3, q3]
              · intro r hr
                rcases List.mem_append.mp hr with h | h
                · exact hmem1 r h
                · obtain ⟨a1, a2, a3⟩ := q4 r h
                  refine ⟨a1, a2, ?_⟩
                  simp only [List.map_cons, List.mem_cons]
                  exact Or.inr a3

theorem countViewsOn_append_rows (s : DB) (rows : List PostStatistics)
    (uid A : String) (today : Nat) (h : ∀ r ∈ rows, r.author_did ≠ A) :
    countViewsOn { s with post_statistics := s.post_statistics ++ rows }
      uid A today = countViewsOn s uid A today := by
  show countOn (s.post_statistics ++ rows) uid A today =
    countOn s.post_statistics uid A today
  rw [countOn_append, countOn_eq_zero_of _ _ _ _ h]
  omega

theorem countViewsOn_append_rows_all (s : DB) (rows : List PostStatistics)
    (uid A : String) (today : Nat)
    (h : ∀ r ∈ rows, r.viewer_did = uid ∧ r.author_did = A ∧ r.viewed_at = today) :
    countViewsOn { s with post_statistics := s.post_statistics ++ rows }
      uid A today = countViewsOn s uid A today + rows.length := by
  show countOn (s.post_statistics ++ rows) uid A today =
    countOn s.post_statistics uid A today + rows.length
  rw [countOn_append, countOn_eq_length_of _ _ _ _ h]

/-- Processing a list of followees that does not contain a given author
leaves the view count of that author unchanged. -/
theorem processFollowees_other_author (sh : List Post → List Post)
    (uid : String) (pvt : List PostStatistics) (P : Int) (today : Nat)
    (fs : List FolloweeRelationship) (acc : List MahootFeedItem) (s : DB)
    (A : String) (h : ∀ g ∈ fs, g.followee_did ≠ A) :
    countViewsOn (processFollowees sh uid pvt P today fs acc s).2 uid A today =
      countViewsOn s uid A today := by
  obtain ⟨its, rows, _, h2, _, h4⟩ := processFollowees_spec sh uid pvt P today fs acc s
  rw [h2]
  apply countViewsOn_append_rows
  intro r hr hEq
  obtain ⟨_, _, a3⟩ := h4 r hr
  obtain ⟨g, hg, hgd⟩ := List.mem_map.mp a3
  exact h g hg (hgd.trans hEq)

/-- Core quota bound: processing a duplicate-free followee list starting
from a state whose per-author view count agrees with the snapshot leaves
the count of a listed followee at most its mahoot number (when the snapshot
was still below it), and unchanged when the snapshot had already reached
it — in particular unchanged for a muted (mahoot number 0) followee. -/
theorem processFollowees_author_bound (sh : List Post → List Post)
    (hsh : ∀ l, (sh l).Perm l) (uid : String) (pvt : List PostStatistics)
    (P : Int) (today : Nat) :
    ∀ (fs : List FolloweeRelationship) (acc : List MahootFeedItem) (s : DB)
      (f : FolloweeRelationship),
      f ∈ fs →
      fs.Pairwise (fun a b => a.followee_did ≠ b.followee_did) →
      countViewsOn s uid f.followee_did today =
        (pvt.filter (fun r => r.author_did == f.followee_did)).length →
      ((((pvt.filter (fun r => r.author_did == f.followee_did)).length : Int) <
          f.mahoot_number →
        (countViewsOn (processFollowees sh uid pvt P today fs acc s).2 uid
            f.followee_did today : Int) ≤ f.mahoot_number) ∧
       (f.mahoot_number ≤
          ((pvt.filter (fun r => r.author_did == f.followee_did)).length : Int) →
        countViewsOn (processFollowees sh uid pvt P today fs acc s).2 uid
            f.followee_did today = countViewsOn s uid f.followee_did today)) := by
  intro fs
  induction fs with
  | nil => intro acc s f hf; exact absurd hf (List.not_mem_nil f)
  | cons g rest ih =>
    intro acc s f hf hpw hcount
    obtain ⟨hgr, hpwr⟩ := List.pairwise_cons.mp hpw
    rcases List.mem_cons.mp hf with hfg | hfr
    · subst hfg
      have hother : ∀ b ∈ rest, b.followee_did ≠ f.followee_did :=
        fun b hb => Ne.symm (hgr b hb)
      simp only [processFollowees]
      split
      · rename_i hQ0
        constructor
        · intro hlt
          rw [hQ0] at hlt
          exact absurd hlt (by omega)
        · intro _
          exact processFollowees_other_author sh uid pvt P today rest acc s
            f.followee_did hother
      · split
        · rename_i hge
          constructor
          · intro hlt
            exact absurd hlt (by omega)
          · intro _
            exact processFollowees_other_author sh uid pvt P today rest acc s
              f.followee_did hother
        · rename_i hnge
          split
          · constructor
            · intro hlt
              rw [processFollowees_other_author sh uid pvt P today rest acc s
                f.followee_did hother, hcount]
              omega
            · intro hge
              exact absurd hge (by omega)
          · split
            · constructor
              · intro hlt
                rw [processFollowees_other_author sh uid pvt P today rest acc s
                  f.followee_did hother, hcount]
                omega
              · intro hge
                exact absurd hge (by omega)
            · rename_i hQ0 hslots hnil
              obtain ⟨its1, rows1, p1, p2, p3, p4, p5, p6⟩ :=
                pushShuffledPosts_spec uid f P today
                  (sh ((getUnviewedPostsByAuthor s uid f.followee_did
                    (min (f.mahoot_number -
                      ((pvt.filter (fun r => r.author_did == f.followee_did)).length : Int))
                      (P - (acc.length : Int)) * 3)).take
                    (min (f.mahoot_number -
                      ((pvt.filter (fun r => r.author_did == f.followee_did)).length : Int))
                      (P - (acc.length : Int))).toNat))
                  ((pvt.filter (fun r => r.author_did == f.followee_did)).length) acc s
              have hmid : countViewsOn
                  { s with post_statistics := s.post_statistics ++ rows1 }
                  uid f.followee_did today =
                  countViewsOn s uid f.followee_did today + rows1.length :=
                countViewsOn_append_rows_all s rows1 uid f.followee_did today p6
              have hlen : rows1.length ≤
                  (min (f.mahoot_number -
                    ((pvt.filter (fun r => r.author_did == f.followee_did)).length : Int))
                    (P - (acc.length : Int))).toNat := by
                rw [p3]
                refine le_trans p4 ?_
                rw [(hsh _).length_eq, List.length_take]
                exact min_le_left _ _
              have hpos : (0 : Int) < min (f.mahoot_number -
                  ((pvt.filter (fun r => r.author_did == f.followee_did)).length : Int))
                  (P - (acc.length : Int)) := by
                omega
              have htn : ((min (f.mahoot_number -
                  ((pvt.filter (fun r => r.author_did == f.followee_did)).length : Int))
                  (P - (acc.length : Int))).toNat : Int) =
                  min (f.mahoot_number -
                    ((pvt.filter (fun r => r.author_did == f.followee_did)).length : Int))
                    (P - (acc.length : Int)) :=
                Int.toNat_of_nonneg (le_of_lt hpos)
              have hminle : min (f.mahoot_number -
                  ((pvt.filter (fun r => r.author_did == f.followee_did)).length : Int))
                  (P - (acc.length : Int)) ≤
                  f.mahoot_number -
                    ((pvt.filter (fun r => r.author_did == f.followee_did)).length : Int) :=
                min_le_left _ _
              split
              · constructor
                · intro hlt
                  rw [p2, hmid, hcount]
                  omega
                · intro hge
                  exact absurd hge (by omega)
              · rw [p1, p2]
                constructor
                · intro hlt
                  rw [processFollowees_other_author sh uid pvt P today rest _ _
                    f.followee_did hother, hmid, hcount]
                  omega
                · intro hge
                  exact absurd hge (by omega)
    · have hne : g.followee_did ≠ f.followee_did := hgr f hfr
      simp only [processFollowees]
      split
      · exact ih acc s f hfr hpwr hcount
      · split
        · exact ih acc s f hfr hpwr hcount
        · split
          · exact ih acc s f hfr hpwr hcount
          · split
            · exact ih acc s f hfr hpwr hcount
            · obtain ⟨its1, rows1, p1, p2, p3, p4, p5, p6⟩ :=
                pushShuffledPosts_spec uid g P today
                  (sh ((getUnviewedPostsByAuthor s uid g.followee_did
                    (min (g.mahoot_number -
                      ((pvt.filter (fun r => r.author_did == g.followee_did)).length : Int))
                      (P - (acc.length : Int)) * 3)).take
                    (min (g.mahoot_number -
                      ((pvt.filter (fun r => r.author_did == g.followee_did)).length : Int))
                      (P - (acc.length : Int))).toNat))
                  ((pvt.filter (fun r => r.author_did == g.followee_did)).length) acc s
              have hmid : countViewsOn
                  { s with post_statistics := s.post_statistics ++ rows1 }
                  uid f.followee_did today =
                  countViewsOn s uid f.followee_did today :=
                countViewsOn_append_rows s rows1 uid f.followee_did today
                  (fun r hr => by
                    obtain ⟨_, a2, _⟩ := p6 r hr
                    rw [a2]; exact hne)
              split
              · constructor
                · intro hlt
                  rw [p2, hmid, hcount]
                  omega
                · intro _
                  rw [p2, hmid]
              · have hrec := ih (acc ++ its1)
                  { s with post_statistics := s.post_statistics ++ rows1 }
                  f hfr hpwr (by rw [hmid]; exact hcount)
                rw [p1, p2]
                constructor
                · intro hlt
                  exact hrec.1 hlt
                · intro hge
                  rw [hrec.2 hge, hmid]

/-! Bridging lemmas between the handler stages. -/

theorem getUserFollowees_getOrCreate (s : DB) (uid : String) (now : Nat)
    (uid2 : String) :
    getUserFollowees (getOrCreateUserPreferences s uid now).2 uid2 =
      getUserFollowees s uid2 := by
  unfold getOrCreateUserPreferences getUserFollowees
  split <;> rfl

theorem post_statistics_getOrCreate (s : DB) (uid : String) (now : Nat) :
    (getOrCreateUserPreferences s uid now).2.post_statistics =
      s.post_statistics := by
  unfold getOrCreateUserPreferences
  split <;> rfl

theorem daily_stats_getOrCreate (s : DB) (uid : String) (now : Nat) :
    (getOrCreateUserPreferences s uid now).2.daily_stats = s.daily_stats := by
  unfold getOrCreateUserPreferences
  split <;> rfl

theorem countViewsOn_eq_of_ps (s s2 : DB) (v a : String) (d : Nat)
    (h : s2.post_statistics = s.post_statistics) :
    countViewsOn s2 v a d = countViewsOn s v a d := by
  unfold countViewsOn
  rw [h]

theorem getPostsViewedToday_eq_of_ps (s s2 : DB) (v : String) (d : Nat)
    (h : s2.post_statistics = s.post_statistics) :
    getPostsViewedToday s2 v d = getPostsViewedToday s v d := by
  unfold getPostsViewedToday
  rw [h]

theorem updateDailyStats_post_statistics (s : DB) (uid : String) (date : Nat)
    (t fc : Int) :
    (updateDailyStats s uid date t fc).post_statistics = s.post_statistics := by
  unfold updateDailyStats
  split <;> rfl

theorem countViewsOn_updateDailyStats (s : DB) (u2 : String) (d2 : Nat)
    (t fc : Int) (v a : String) (d : Nat) :
    countViewsOn (updateDailyStats s u2 d2 t fc) v a d = countViewsOn s v a d :=
  countViewsOn_eq_of_ps s _ v a d (updateDailyStats_post_statistics s u2 d2 t fc)

/-- C1: for every user, followee and day, a generateFeed call creates no
view records for a quota-0 followee (the per-author count is unchanged),
and never pushes the per-author daily view count of any followee beyond its
quota: whenever the count was at most the quota before the call, it still
is after the call, for every page size and every remaining budget. The
followee list is duplicate-free by the unique constraint on
(user_did, followee_did). -/
theorem generateFeed_quota_invariant (sh : List Post → List Post)
    (srt : List MahootFeedItem → List MahootFeedItem)
    (hsh : ∀ l, (sh l).Perm l) (s : DB) (uid : String)
    (paramsLimit : Option Int) (today : Nat) (f : FolloweeRelationship)
    (huniq : (getUserFollowees s uid).Pairwise
      (fun a b => a.followee_did ≠ b.followee_did))
    (hf : f ∈ getUserFollowees s uid) :
    (f.mahoot_number = 0 →
      countViewsOn (generateFeed sh srt s (some uid) paramsLimit today).2
        uid f.followee_did today = countViewsOn s uid f.followee_did today) ∧
    ((countViewsOn s uid f.followee_did today : Int) ≤ f.mahoot_number →
      (countViewsOn (generateFeed sh srt s (some uid) paramsLimit today).2
        uid f.followee_did today : Int) ≤ f.mahoot_number) := by
  have hbefore : countViewsOn (getOrCreateUserPreferences s uid today).2
      uid f.followee_did today = countViewsOn s uid f.followee_did today :=
    countViewsOn_eq_of_ps _ _ _ _ _ (post_statistics_getOrCreate s uid today)
  simp only [generateFeed]
  split
  · exact ⟨fun _ => hbefore, fun h => by
      show (countViewsOn (getOrCreateUserPreferences s uid today).2
        uid f.followee_did today : Int) ≤ f.mahoot_number
      rw [hbefore]; exact h⟩
  · split
    · exact ⟨fun _ => hbefore, fun h => by
        show (countViewsOn (getOrCreateUserPreferences s uid today).2
          uid f.followee_did today : Int) ≤ f.mahoot_number
        rw [hbefore]; exact h⟩
    · dsimp only
      rw [countViewsOn_updateDailyStats]
      set S1 := (getOrCreateUserPreferences s uid today).2 with hS1def
      have hfol : getUserFollowees S1 uid = getUserFollowees s uid :=
        getUserFollowees_getOrCreate s uid today uid
      have hperm : (List.insertionSort (fun a b => b.mahoot_number ≤ a.mahoot_number)
          (getUserFollowees S1 uid)).Perm (getUserFollowees s uid) := by
        rw [hfol]
        exact List.perm_insertionSort _ _
      have hmem : f ∈ List.insertionSort (fun a b => b.mahoot_number ≤ a.mahoot_number)
          (getUserFollowees S1 uid) := hperm.mem_iff.mpr hf
      have hpair : (List.insertionSort (fun a b => b.mahoot_number ≤ a.mahoot_number)
          (getUserFollowees S1 uid)).Pairwise
          (fun a b => a.followee_did ≠ b.followee_did) :=
        (hperm.pairwise_iff (fun h => Ne.symm h)).mpr huniq
      have hcnt : countViewsOn S1 uid f.followee_did today =
          ((getPostsViewedToday S1 uid today).filter
            (fun r => r.author_did == f.followee_did)).length :=
        (snapshot_author_count S1 uid f.followee_did today).symm
      have hb := processFollowees_author_bound sh hsh uid
        (getPostsViewedToday S1 uid today)
        (min ((getOrCreateUserPreferences s uid today).1.daily_post_limit -
          ((getPostsViewedToday S1 uid today).length : Int))
          (jsOrDefault paramsLimit 20)) today
        (List.insertionSort (fun a b => b.mahoot_number ≤ a.mahoot_number)
          (getUserFollowees S1 uid)) [] S1 f hmem hpair hcnt
      constructor
      · intro hQ0
        have h2 := hb.2 (by rw [hQ0]; exact Int.natCast_nonneg _)
        rw [h2, hbefore]
      · intro hle
        by_cases hsnap : (((getPostsViewedToday S1 uid today).filter
            (fun r => r.author_did == f.followee_did)).length : Int) < f.mahoot_number
        · exact hb.1 hsnap
        · have h2 := hb.2 (by omega)
          rw [h2]
          show (countViewsOn S1 uid f.followee_did today : Int) ≤ f.mahoot_number
          rw [hbefore]
          exact hle

/-- Concrete state for the C1 witness: one user with a preferences row, one
followee with quota 1, one unread post by that followee, no views yet. -/
def dbW1 : DB :=
  { post := [⟨"at://a/post/1", "c", 3, "a"⟩]
    user_preferences := [⟨"u", 300, 7, 0, 0⟩]
    followee_relationships := [⟨"u", "a", 1, "x", 0, 0⟩]
    post_statistics := []
    daily_stats := [] }

/-- Witness for C1 at a concrete input. -/
theorem generateFeed_quota_invariant_witness :
    (countViewsOn dbW1 "u" "a" 7 : Int) ≤ 1 ∧
    (countViewsOn (generateFeed id id dbW1 (some "u") (some 10) 7).2
      "u" "a" 7 : Int) ≤ 1 :=
  ⟨by decide,
    (generateFeed_quota_invariant id id (fun l => List.Perm.refl l) dbW1 "u"
      (some 10) 7 (⟨"u", "a", 1, "x", 0, 0⟩ : FolloweeRelationship)
      (by decide) (by decide)).2 (by decide)⟩

/-- The empty database. -/
def emptyDB : DB := ⟨[], [], [], [], []⟩

/-- C2: trackPostView is not idempotent. post_statistics carries no
uniqueness constraint, so the ON CONFLICT DO NOTHING clause never fires and
calling trackPostView twice with identical arguments leaves two rows, not
one. -/
theorem trackPostView_not_idempotent :
    (trackPostView (trackPostView emptyDB "at://p" "a" "v" 5)
      "at://p" "a" "v" 5).post_statistics.length = 2 := rfl

/-- Equality of the integer ceiling division with the rational ceiling. -/
theorem ceilDivInt_eq_ceil (a : Int) (b : Nat) :
    ceilDivInt a b = ⌈(a : Rat) / (b : Rat)⌉ := by
  unfold ceilDivInt
  have h1 : Int.ediv (-a) b = (-a) / (b : Int) := rfl
  rw [h1, ← Rat.floor_intCast_div_natCast (-a) b]
  have h2 : ((( -a : Int) : Rat) / ((b : Nat) : Rat)) = -((a : Rat) / (b : Rat)) := by
    push_cast
    ring
  rw [h2, Int.floor_neg, neg_neg]

/-- Modelled from the spec wording for calculateDefaultQuota:
clamp(ceil(L / N), 1, 20) when the followee count N is positive, and the
stored default quota unchanged when N = 0. -/
def specDefaultQuota (L : Int) (N : Nat) (dflt : Int) : Int :=
  if N = 0 then dflt else min (max ⌈(L : Rat) / (N : Rat)⌉ 1) 20

/-- Concrete state for the C4 counterexample: daily limit 300 and 1000
followees. -/
def dbC4 : DB :=
  { post := []
    user_preferences := [⟨"u", 300, 7, 0, 0⟩]
    followee_relationships := (List.range 1000).map
      (fun i => ⟨"u", "f" ++ Nat.repr i, 7, "x", 0, 0⟩)
    post_statistics := []
    daily_stats := [] }

set_option maxRecDepth 40000 in
/-- C4 counterexample: with daily limit 300 and 1000 followees the computed
default mahoot number is ceil(300/1000) clamped below to 1 — it is 1, not
20 as the claim states. -/
theorem calculateDefaultMahootNumber_1000_followees :
    dbC4.followee_relationships.length = 1000 ∧
    calculateDefaultMahootNumber dbC4 "u" 0 = 1 := by decide

/-- C4 (amended): calculateDefaultMahootNumber computes
clamp(ceil(L / N), 1, 20) where L is the daily post limit and N the
followee count, returning the stored default unchanged for N = 0; in
particular clamp(ceil(300/20)) = 15 and clamp(ceil(300/1000)) = 1 (the
lower clamp applies there, not the ceiling of 20). -/
theorem calculateDefaultMahootNumber_spec (s : DB) (uid : String) (now : Nat)
    (prefs : UserPreferences)
    (hp : s.user_preferences.find? (fun r => r.user_did == uid) = some prefs) :
    calculateDefaultMahootNumber s uid now =
      specDefaultQuota prefs.daily_post_limit
        ((s.followee_relationships.filter (fun r => r.user_did == uid)).length)
        prefs.default_mahoot_number ∧
    specDefaultQuota 300 20 7 = 15 ∧
    specDefaultQuota 300 1000 7 = 1 := by
  have hgoc : getOrCreateUserPreferences s uid now = (prefs, s) := by
    unfold getOrCreateUserPreferences
    rw [hp]
  refine ⟨?_, ?_, ?_⟩
  · unfold calculateDefaultMahootNumber specDefaultQuota
    rw [hgoc]
    dsimp only
    split
    · rfl
    · rw [ceilDivInt_eq_ceil, max_comm]
  · show specDefaultQuota 300 20 7 = 15
    unfold specDefaultQuota
    rw [if_neg (by omega), ← ceilDivInt_eq_ceil 300 20]
    decide
  · show specDefaultQuota 300 1000 7 = 1
    unfold specDefaultQuota
    rw [if_neg (by omega), ← ceilDivInt_eq_ceil 300 1000]
    decide

/-- Concrete state for the C4 witness: daily limit 300 and 20 followees. -/
def dbW4 : DB :=
  { post := []
    user_preferences := [⟨"u", 300, 7, 0, 0⟩]
    followee_relationships := (List.range 20).map
      (fun i => ⟨"u", "f" ++ Nat.repr i, 7, "x", 0, 0⟩)
    post_statistics := []
    daily_stats := [] }

set_option maxRecDepth 4000 in
/-- Witness for C4 at a concrete input: 20 followees give quota 15. -/
theorem calculateDefaultMahootNumber_spec_witness :
    dbW4.user_preferences.find? (fun r => r.user_did == "u") =
      some ⟨"u", 300, 7, 0, 0⟩ ∧
    (calculateDefaultMahootNumber dbW4 "u" 0 = specDefaultQuota 300 20 7 ∧
      specDefaultQuota 300 20 7 = 15 ∧ specDefaultQuota 300 1000 7 = 1) :=
  ⟨by decide, by
    have h := calculateDefaultMahootNumber_spec dbW4 "u" 0 ⟨"u", 300, 7, 0, 0⟩
      (by decide)
    exact ⟨h.1, h.2.1, h.2.2⟩⟩

theorem getOrCreateUserPreferences_of_found (s : DB) (uid : String) (now : Nat)
    (prefs : UserPreferences)
    (hp : s.user_preferences.find? (fun r => r.user_did == uid) = some prefs) :
    getOrCreateUserPreferences s uid now = (prefs, s) := by
  unfold getOrCreateUserPreferences
  rw [hp]

/-- C8 counterexample: for a fresh user (no preferences row) with zero
followees, generateFeed does return the empty page but also writes the
default preferences row — a store mutation. -/
theorem generateFeed_fresh_user_writes :
    (generateFeed id id emptyDB (some "u") none 0).1 = some ⟨none, []⟩ ∧
    (generateFeed id id emptyDB (some "u") none 0).2.user_preferences.length = 1 ∧
    emptyDB.user_preferences.length = 0 := by decide

/-- C8 (amended): for a user whose preferences row already exists and who
has zero followees, generateFeed returns cursor undefined with an empty
feed and leaves the database exactly unchanged; for a user without a
preferences row, the call additionally inserts the default preferences row
(the only write). -/
theorem generateFeed_no_followees (sh : List Post → List Post)
    (srt : List MahootFeedItem → List MahootFeedItem) (s : DB) (uid : String)
    (paramsLimit : Option Int) (today : Nat) (prefs : UserPreferences)
    (hp : s.user_preferences.find? (fun r => r.user_did == uid) = some prefs)
    (hf : getUserFollowees s uid = []) :
    generateFeed sh srt s (some uid) paramsLimit today =
      (some { cursor := none, feed := [] }, s) := by
  simp only [generateFeed, getOrCreateUserPreferences_of_found s uid today prefs hp]
  simp [hf]

/-- Concrete state for the C8 witness: existing preferences row, zero
followees. -/
def dbW8 : DB := ⟨[], [⟨"u", 300, 7, 0, 0⟩], [], [], []⟩

/-- Witness for C8 at a concrete input. -/
theorem generateFeed_no_followees_witness :
    dbW8.user_preferences.find? (fun r => r.user_did == "u") =
      some ⟨"u", 300, 7, 0, 0⟩ ∧
    getUserFollowees dbW8 "u" = [] ∧
    generateFeed id id dbW8 (some "u") none 3 =
      (some { cursor := none, feed := [] }, dbW8) :=
  ⟨by decide, by decide,
    generateFeed_no_followees id id dbW8 "u" none 3 ⟨"u", 300, 7, 0, 0⟩
      (by decide) (by decide)⟩

/-- Concrete state for the C3 counterexample: a fresh user (no preferences
row, so the effective daily limit is the default 300) who already has 300
view records today. -/
def dbC3 : DB :=
  { post := []
    user_preferences := []
    followee_relationships := []
    post_statistics := List.replicate 300 ⟨"at://p", "a", "u", 0⟩
    daily_stats := [] }

set_option maxRecDepth 40000 in
/-- C3 counterexample: the daily budget of this user is exhausted
(300 views, default limit 300), yet generateFeed writes the default
preferences row — a store mutation. -/
theorem generateFeed_exhausted_fresh_user_writes :
    ((countViewsToday dbC3 "u" 0 : Int) ≥ 300) ∧
    (generateFeed id id dbC3 (some "u") none 0).2.user_preferences.length = 1 ∧
    dbC3.user_preferences.length = 0 := by decide

/-- C3 (amended): for a user whose preferences row already exists and whose
same-day view count has reached the daily post limit, generateFeed returns
an empty feed with no cursor and leaves the database exactly unchanged (no
ViewRecord, no DailyStat upsert, no other mutation); for a user without a
preferences row the call additionally inserts the default preferences row
(the only write). -/
theorem generateFeed_budget_exhausted (sh : List Post → List Post)
    (srt : List MahootFeedItem → List MahootFeedItem) (s : DB) (uid : String)
    (paramsLimit : Option Int) (today : Nat) (prefs : UserPreferences)
    (hp : s.user_preferences.find? (fun r => r.user_did == uid) = some prefs)
    (hv : (countViewsToday s uid today : Int) ≥ prefs.daily_post_limit) :
    generateFeed sh srt s (some uid) paramsLimit today =
      (some { cursor := none, feed := [] }, s) := by
  simp only [generateFeed, getOrCreateUserPreferences_of_found s uid today prefs hp]
  split
  · rfl
  · have hv2 : ((getPostsViewedToday s uid today).length : Int) ≥
      prefs.daily_post_limit := hv
    rw [if_pos hv2]

/-- Concrete state for the C3 witness: daily limit 2, two views already
recorded today, one followee with unread posts. -/
def dbW3 : DB :=
  { post := [⟨"at://a/post/9", "c", 9, "a"⟩]
    user_preferences := [⟨"u", 2, 7, 0, 0⟩]
    followee_relationships := [⟨"u", "a", 5, "x", 0, 0⟩]
    post_statistics := [⟨"at://a/post/1", "a", "u", 4⟩, ⟨"at://a/post/2", "a", "u", 4⟩]
    daily_stats := [] }

/-- Witness for C3 at a concrete input. -/
theorem generateFeed_budget_exhausted_witness :
    dbW3.user_preferences.find? (fun r => r.user_did == "u") =
      some ⟨"u", 2, 7, 0, 0⟩ ∧
    ((countViewsToday dbW3 "u" 4 : Int) ≥ 2) ∧
    generateFeed id id dbW3 (some "u") (some 50) 4 =
      (some { cursor := none, feed := [] }, dbW3) :=
  ⟨by decide, by decide,
    generateFeed_budget_exhausted id id dbW3 "u" (some 50) 4 ⟨"u", 2, 7, 0, 0⟩
      (by decide) (by decide)⟩

/-- With a nonpositive page cap and an empty accumulator, every followee is
skipped: the loop emits nothing and leaves the state unchanged. -/
theorem processFollowees_nonpositive_cap (sh : List Post → List Post)
    (uid : String) (pvt : List PostStatistics) (today : Nat) (P : Int)
    (hP : P ≤ 0) :
    ∀ (fs : List FolloweeRelationship) (s : DB),
    processFollowees sh uid pvt P today fs [] s = ([], s) := by
  intro fs
  induction fs with
  | nil => intro s; rfl
  | cons f rest ih =>
    intro s
    simp only [processFollowees]
    split
    · exact ih s
    · split
      · exact ih s
      · split
        · exact ih s
        · rename_i h3
          exfalso
          apply h3
          refine le_trans (min_le_right _ _) ?_
          simp only [List.length_nil, Nat.cast_zero, sub_zero]
          exact hP

/-- Concrete state for the C5 counterexample and witness: one user with
budget remaining, one followee with quota 5, one unread post. -/
def dbC5 : DB :=
  { post := [⟨"at://f/post/1", "c", 10, "f"⟩]
    user_preferences := [⟨"u", 300, 7, 0, 0⟩]
    followee_relationships := [⟨"u", "f", 5, "x", 0, 0⟩]
    post_statistics := []
    daily_stats := [] }

/-- C5 counterexample: a requested page size of 0 (which is ≤ 0) does not
short-circuit to an empty page — JavaScript treats the 0 as falsy, the
limit falls back to the default 20, and one post is served. -/
theorem generateFeed_zero_limit_serves :
    ((0 : Int) ≤ 0) ∧
    ((countViewsToday dbC5 "u" 10 : Int) < 300) ∧
    Option.map (fun r => r.feed.length)
      (generateFeed id id dbC5 (some "u") (some 0) 10).1 = some 1 := by decide

/-- C5 (amended): for every strictly negative requested page size the call
deterministically returns an empty page (cursor undefined, empty feed),
because the page cap min(remaining, P) is negative; a requested page size
of exactly 0 is treated as absent by the JavaScript or-default and falls
back to the default of 20. -/
theorem generateFeed_negative_limit_empty (sh : List Post → List Post)
    (srt : List MahootFeedItem → List MahootFeedItem)
    (hsrt : ∀ l, (srt l).Perm l) (s : DB) (uid : String) (today : Nat)
    (l : Int) (hl : l < 0) :
    (generateFeed sh srt s (some uid) (some l) today).1 =
      some { cursor := none, feed := [] } := by
  simp only [generateFeed]
  split
  · rfl
  · split
    · rfl
    · have hjs : jsOrDefault (some l) 20 = l := by
        show (if l = 0 then (20 : Int) else l) = l
        rw [if_neg (by omega)]
      rw [hjs]
      rw [processFollowees_nonpositive_cap sh uid _ today _
        (le_trans (min_le_right _ _) (le_of_lt hl)) _ _]
      have hnil : srt ([] : List MahootFeedItem) = [] := (hsrt []).eq_nil
      dsimp only
      rw [hnil]
      rfl

/-- Witness for the amended C5 at a concrete input. -/
theorem generateFeed_negative_limit_empty_witness :
    ((-5 : Int) < 0) ∧
    (generateFeed id id dbC5 (some "u") (some (-5)) 10).1 =
      some { cursor := none, feed := [] } :=
  ⟨by decide,
    generateFeed_negative_limit_empty id id (fun l => List.Perm.refl l)
      dbC5 "u" 10 (-5) (by decide)⟩

/-- Concrete state for C6: followees with quotas 3 ("b", listed first) and
10 ("a"), ten unread posts each, daily limit 300, no views yet; requested
page size 8. -/
def dbC6 : DB :=
  { post := (List.range 10).map (fun i => ⟨"at://a/" ++ Nat.repr i, "c", i, "a"⟩) ++
            (List.range 10).map (fun i => ⟨"at://b/" ++ Nat.repr i, "c", i, "b"⟩)
    user_preferences := [⟨"u", 300, 7, 0, 0⟩]
    followee_relationships := [⟨"u", "b", 3, "x", 0, 0⟩, ⟨"u", "a", 10, "y", 0, 0⟩]
    post_statistics := []
    daily_stats := [] }

/-- The quota-10 followee record of dbC6. -/
def dbC6aEdge : FolloweeRelationship := ⟨"u", "a", 10, "y", 0, 0⟩

/-- The eight candidate posts selected for the quota-10 followee of dbC6
(newest first, capped by the page budget of 8). -/
def dbC6posts8 : List Post :=
  [⟨"at://a/9", "c", 9, "a"⟩, ⟨"at://a/8", "c", 8, "a"⟩, ⟨"at://a/7", "c", 7, "a"⟩,
   ⟨"at://a/6", "c", 6, "a"⟩, ⟨"at://a/5", "c", 5, "a"⟩, ⟨"at://a/4", "c", 4, "a"⟩,
   ⟨"at://a/3", "c", 3, "a"⟩, ⟨"at://a/2", "c", 2, "a"⟩]

/-- C6: followees are serviced in descending quota order, and a tight page
cap is consumed priority-first — with quotas 10 and 3, both with ample
unread posts, and an effective page cap of 8, the quota-10 followee
contributes all 8 items of the page and the quota-3 followee contributes 0,
for every shuffle and every final recency reordering. -/
theorem generateFeed_priority_allocation (sh : List Post → List Post)
    (srt : List MahootFeedItem → List MahootFeedItem)
    (hsh : ∀ l, (sh l).Perm l) (hsrt : ∀ l, (srt l).Perm l) :
    Option.map (fun r => (r.feed.length,
        (r.feed.filter (fun it => it.author_did == "a")).length,
        (r.feed.filter (fun it => it.author_did == "b")).length))
      (generateFeed sh srt dbC6 (some "u") (some 8) 10).1 = some (8, 8, 0) := by
  have key1 : (generateFeed sh srt dbC6 (some "u") (some 8) 10).1 =
      (let step := pushShuffledPosts "u" dbC6aEdge 8 10 (sh dbC6posts8) 0 [] dbC6
       let res := if (step.1.length : Int) ≥ 8 then step
                  else processFollowees sh "u" [] 8 10 [⟨"u", "b", 3, "x", 0, 0⟩]
                    step.1 step.2
       let feed := srt res.1
       some ({ cursor :=
                match feed.getLast? with
                | some lastPost => some (toString 10 ++ "::" ++ lastPost.post)
                | none => none,
               feed := feed } : FeedResult)) := rfl
  have hshlen : (sh dbC6posts8).length = 8 := by
    rw [(hsh dbC6posts8).length_eq]; rfl
  obtain ⟨its, rows, p1, p2, p3, p4, p5, p6⟩ :=
    pushShuffledPosts_spec "u" dbC6aEdge 8 10 (sh dbC6posts8) 0 [] dbC6
  have hstep1 : (pushShuffledPosts "u" dbC6aEdge 8 10
      (sh dbC6posts8) 0 [] dbC6).1.length = 8 := by
    have h := pushShuffledPosts_length "u" dbC6aEdge 8 10 (sh dbC6posts8) 0 [] dbC6
      (by simp [hshlen])
    simpa [hshlen] using h
  have hits_len : its.length = 8 := by
    have h := congrArg List.length p1
    rw [hstep1] at h
    simpa using h.symm
  have hall : ∀ it ∈ its, it.author_did = "a" := by
    intro it hit
    exact p5 it hit
  have hfa : ((srt (pushShuffledPosts "u" dbC6aEdge 8 10
      (sh dbC6posts8) 0 [] dbC6).1).filter
      (fun it => it.author_did == "a")).length = 8 := by
    rw [← List.countP_eq_length_filter, (hsrt _).countP_eq,
      List.countP_eq_length_filter, p1, List.nil_append,
      List.filter_eq_self.mpr (fun it hit => by simp [hall it hit])]
    exact hits_len
  have hfb : ((srt (pushShuffledPosts "u" dbC6aEdge 8 10
      (sh dbC6posts8) 0 [] dbC6).1).filter
      (fun it => it.author_did == "b")).length = 0 := by
    rw [← List.countP_eq_length_filter, (hsrt _).countP_eq,
      List.countP_eq_length_filter, p1, List.nil_append]
    simp only [List.length_eq_zero, List.filter_eq_nil_iff]
    intro it hit
    simp [hall it hit]
  have hfeedlen : (srt (pushShuffledPosts "u" dbC6aEdge 8 10
      (sh dbC6posts8) 0 [] dbC6).1).length = 8 := by
    rw [(hsrt _).length_eq, hstep1]
  rw [key1]
  dsimp only
  rw [if_pos (by rw [hstep1]; norm_num)]
  simp only [Option.map_some']
  rw [Option.some.injEq, Prod.mk.injEq, Prod.mk.injEq]
  exact ⟨hfeedlen, hfa, hfb⟩

/-- Witness for C6 at the identity shuffle and identity recency sort. -/
theorem generateFeed_priority_allocation_witness :
    Option.map (fun r => (r.feed.length,
        (r.feed.filter (fun it => it.author_did == "a")).length,
        (r.feed.filter (fun it => it.author_did == "b")).length))
      (generateFeed id id dbC6 (some "u") (some 8) 10).1 = some (8, 8, 0) :=
  generateFeed_priority_allocation id id
    (fun l => List.Perm.refl l) (fun l => List.Perm.refl l)

theorem countViewsToday_eq_of_ps (s s2 : DB) (v : String) (d : Nat)
    (h : s2.post_statistics = s.post_statistics) :
    countViewsToday s2 v d = countViewsToday s v d := by
  unfold countViewsToday getPostsViewedToday
  rw [h]

theorem dailyStatsConsistent_updateDailyStats (X : DB) (uid : String)
    (today : Nat) (TOT FC : Int)
    (hX : ∀ r ∈ X.daily_stats, ¬(r.user_did = uid ∧ r.date = today) →
      r.total_posts_viewed = (countViewsToday X r.user_did r.date : Int))
    (hTOT : TOT = (countViewsToday X uid today : Int)) :
    dailyStatsConsistent (updateDailyStats X uid today TOT FC) := by
  intro r hr
  have hps : (updateDailyStats X uid today TOT FC).post_statistics =
    X.post_statistics := updateDailyStats_post_statistics X uid today TOT FC
  rw [countViewsToday_eq_of_ps X _ _ _ hps]
  unfold updateDailyStats at hr
  split at hr
  · rename_i hany
    simp only [List.mem_map] at hr
    obtain ⟨r0, hr0, hr0eq⟩ := hr
    by_cases hm : (r0.user_did == uid && r0.date == today) = true
    · rw [if_pos hm] at hr0eq
      simp only [Bool.and_eq_true, beq_iff_eq] at hm
      subst hr0eq
      simpa [hm.1, hm.2] using hTOT
    · rw [if_neg hm] at hr0eq
      subst hr0eq
      simp only [Bool.and_eq_true, beq_iff_eq, not_and] at hm
      exact hX r0 hr0 (fun hc => by
        rcases hc with ⟨h1, h2⟩
        exact absurd h2 (hm h1))
  · rename_i hany
    simp only [List.mem_append, List.mem_singleton] at hr
    rcases hr with hr | hr
    · refine hX r hr ?_
      intro hc
      apply hany
      simp only [List.any_eq_true, Bool.and_eq_true, beq_iff_eq]
      exact ⟨r, hr, hc.1, hc.2⟩
    · subst hr
      simpa using hTOT



theorem dailyStatsConsistent_getOrCreate (s : DB) (uid : String) (now : Nat)
    (h : dailyStatsConsistent s) :
    dailyStatsConsistent (getOrCreateUserPreferences s uid now).2 := by
  intro r hr
  rw [daily_stats_getOrCreate] at hr
  rw [countViewsToday_eq_of_ps s _ _ _ (post_statistics_getOrCreate s uid now)]
  exact h r hr

/-- C7: for every user and day, a sequential generateFeed call preserves
(and, when it reaches its upsert, establishes) the invariant that
total_posts_viewed stored in each DailyStat row equals the number of view
records of that user on that date: the allocator upserts
viewedCount-before-call plus the number of posts emitted in this call,
which is exactly the post-call count. -/
theorem generateFeed_dailyStats_invariant (sh : List Post → List Post)
    (srt : List MahootFeedItem → List MahootFeedItem)
    (hsrt : ∀ l, (srt l).Perm l) (s : DB) (uid : String)
    (paramsLimit : Option Int) (today : Nat)
    (h : dailyStatsConsistent s) :
    dailyStatsConsistent (generateFeed sh srt s (some uid) paramsLimit today).2 := by
  simp only [generateFeed]
  split
  · exact dailyStatsConsistent_getOrCreate s uid today h
  · split
    · exact dailyStatsConsistent_getOrCreate s uid today h
    · dsimp only
      set S1 := (getOrCreateUserPreferences s uid today).2 with hS1def
      obtain ⟨its, rows, q1, q2, q3, q4⟩ :=
        processFollowees_spec sh uid (getPostsViewedToday S1 uid today)
          (min ((getOrCreateUserPreferences s uid today).1.daily_post_limit -
            ((getPostsViewedToday S1 uid today).length : Int))
            (jsOrDefault paramsLimit 20)) today
          (List.insertionSort (fun a b => b.mahoot_number ≤ a.mahoot_number)
            (getUserFollowees S1 uid)) [] S1
      have hs1cons : dailyStatsConsistent S1 :=
        dailyStatsConsistent_getOrCreate s uid today h
      refine dailyStatsConsistent_updateDailyStats _ uid today _ _ ?_ ?_
      · intro r hr hnm
        have hr2 : r ∈ S1.daily_stats := by rw [q2] at hr; exact hr
        have hcnt : countViewsToday
            (processFollowees sh uid (getPostsViewedToday S1 uid today)
              (min ((getOrCreateUserPreferences s uid today).1.daily_post_limit -
                ((getPostsViewedToday S1 uid today).length : Int))
                (jsOrDefault paramsLimit 20)) today
              (List.insertionSort (fun a b => b.mahoot_number ≤ a.mahoot_number)
                (getUserFollowees S1 uid)) [] S1).2 r.user_did r.date =
            countViewsToday S1 r.user_did r.date := by
          rw [q2, countViewsToday_eq, countViewsToday_eq]
          show countDay (S1.post_statistics ++ rows) r.user_did r.date =
            countDay S1.post_statistics r.user_did r.date
          rw [countDay_append,
            countDay_eq_zero_of rows uid r.user_did today r.date
              (fun r0 hr0 => ⟨(q4 r0 hr0).1, (q4 r0 hr0).2.1⟩) hnm]
          omega
        rw [hcnt]
        exact hs1cons r hr2
      · have hlen : (srt (processFollowees sh uid (getPostsViewedToday S1 uid today)
            (min ((getOrCreateUserPreferences s uid today).1.daily_post_limit -
              ((getPostsViewedToday S1 uid today).length : Int))
              (jsOrDefault paramsLimit 20)) today
            (List.insertionSort (fun a b => b.mahoot_number ≤ a.mahoot_number)
              (getUserFollowees S1 uid)) [] S1).1).length = rows.length := by
          rw [(hsrt _).length_eq, q1, List.nil_append, q3]
        have hcnt2 : countViewsToday
            (processFollowees sh uid (getPostsViewedToday S1 uid today)
              (min ((getOrCreateUserPreferences s uid today).1.daily_post_limit -
                ((getPostsViewedToday S1 uid today).length : Int))
                (jsOrDefault paramsLimit 20)) today
              (List.insertionSort (fun a b => b.mahoot_number ≤ a.mahoot_number)
                (getUserFollowees S1 uid)) [] S1).2 uid today =
            countViewsToday S1 uid today + rows.length := by
          rw [q2, countViewsToday_eq, countViewsToday_eq]
          show countDay (S1.post_statistics ++ rows) uid today =
            countDay S1.post_statistics uid today + rows.length
          rw [countDay_append,
            countDay_eq_length_of rows uid today
              (fun r0 hr0 => ⟨(q4 r0 hr0).1, (q4 r0 hr0).2.1⟩)]
        rw [hlen, hcnt2]
        have hpvt : countViewsToday S1 uid today =
          (getPostsViewedToday S1 uid today).length := rfl
        rw [hpvt]
        push_cast
        ring

/-- Concrete state for the C7 witness: one consistent DailyStat row, one
view so far today, one followee with an unread post left. -/
def dbW7 : DB :=
  { post := [⟨"at://a/post/0", "c", 0, "a"⟩, ⟨"at://a/post/1", "c", 1, "a"⟩]
    user_preferences := [⟨"u", 300, 7, 0, 0⟩]
    followee_relationships := [⟨"u", "a", 2, "x", 0, 0⟩]
    post_statistics := [⟨"at://a/post/0", "a", "u", 5⟩]
    daily_stats := [⟨"u", 5, 1, 1⟩] }

/-- Witness for C7 at a concrete input. -/
theorem generateFeed_dailyStats_invariant_witness :
    dailyStatsConsistent dbW7 ∧
    dailyStatsConsistent (generateFeed id id dbW7 (some "u") (some 10) 5).2 :=
  ⟨by unfold dailyStatsConsistent; decide,
    generateFeed_dailyStats_invariant id id (fun l => List.Perm.refl l)
      dbW7 "u" (some 10) 5 (by unfold dailyStatsConsistent; decide)⟩

/-- C9: the 30-day rolling averages are computed only over days that have
a DailyStat row within the window, not over the full 30-day span:
daysWithData equals the number of distinct dates with a row (dates are
unique per user by the unique constraint on (user_did, date)),
totalPostsViewed is the sum over those rows, and whenever daysWithData is
nonzero the average satisfies avg * daysWithData = total, i.e. the
denominator is the number of days with data. -/
theorem get30DayRollingStats_days_with_data (s : DB) (uid : String) (today : Nat)
    (huniq : s.daily_stats.Pairwise
      (fun a b => a.user_did = b.user_did → a.date ≠ b.date)) :
    (get30DayRollingStats s uid today).daysWithData =
      (((s.daily_stats.filter (fun r =>
        r.user_did == uid && decide (today - 30 ≤ r.date))).map
        (fun r => r.date)).dedup).length ∧
    (get30DayRollingStats s uid today).totalPostsViewed =
      ((s.daily_stats.filter (fun r =>
        r.user_did == uid && decide (today - 30 ≤ r.date))).map
        (fun r => r.total_posts_viewed)).sum ∧
    ((get30DayRollingStats s uid today).daysWithData ≠ 0 →
      (get30DayRollingStats s uid today).averagePostsPerDay *
        ((get30DayRollingStats s uid today).daysWithData : Rat) =
        ((get30DayRollingStats s uid today).totalPostsViewed : Rat)) := by
  have hpw2 : (s.daily_stats.filter (fun r =>
      r.user_did == uid && decide (today - 30 ≤ r.date))).Pairwise
      (fun a b => a.date ≠ b.date) := by
    refine List.Pairwise.imp_of_mem ?_ (huniq.filter _)
    intro a b ha hb hr
    have ha2 := (List.mem_filter.mp ha).2
    have hb2 := (List.mem_filter.mp hb).2
    simp only [Bool.and_eq_true, beq_iff_eq, decide_eq_true_eq] at ha2 hb2
    exact hr (ha2.1.trans hb2.1.symm)
  have hnodup : ((s.daily_stats.filter (fun r =>
      r.user_did == uid && decide (today - 30 ≤ r.date))).map
      (fun r => r.date)).Nodup :=
    List.pairwise_map.mpr hpw2
  refine ⟨?_, rfl, ?_⟩
  · show (s.daily_stats.filter (fun r =>
      r.user_did == uid && decide (today - 30 ≤ r.date))).length = _
    rw [List.dedup_eq_self.mpr hnodup, List.length_map]
  · intro hne
    have hn : (s.daily_stats.filter (fun r =>
      r.user_did == uid && decide (today - 30 ≤ r.date))).length ≠ 0 := hne
    simp only [get30DayRollingStats]
    rw [if_neg hn]
    exact div_mul_cancel₀ _ (Nat.cast_ne_zero.mpr hn)

/-- Concrete state for the C9 witness: DailyStat rows on exactly 2 of the
last 30 days for this user (totals 10 and 20), plus a row of another
user. -/
def dbW9 : DB :=
  { post := [], user_preferences := [], followee_relationships := []
    post_statistics := []
    daily_stats := [⟨"u", 5, 10, 3⟩, ⟨"u", 9, 20, 3⟩, ⟨"w", 9, 7, 1⟩] }

/-- Witness for C9 at a concrete input: 2 days with data, average
(10+20)/2 = 15, not 30/30. -/
theorem get30DayRollingStats_days_with_data_witness :
    dbW9.daily_stats.Pairwise
      (fun a b => a.user_did = b.user_did → a.date ≠ b.date) ∧
    ((get30DayRollingStats dbW9 "u" 30).daysWithData =
      (((dbW9.daily_stats.filter (fun r =>
        r.user_did == "u" && decide (30 - 30 ≤ r.date))).map
        (fun r => r.date)).dedup).length ∧
     (get30DayRollingStats dbW9 "u" 30).totalPostsViewed =
      ((dbW9.daily_stats.filter (fun r =>
        r.user_did == "u" && decide (30 - 30 ≤ r.date))).map
        (fun r => r.total_posts_viewed)).sum ∧
     ((get30DayRollingStats dbW9 "u" 30).daysWithData ≠ 0 →
      (get30DayRollingStats dbW9 "u" 30).averagePostsPerDay *
        ((get30DayRollingStats dbW9 "u" 30).daysWithData : Rat) =
        ((get30DayRollingStats dbW9 "u" 30).totalPostsViewed : Rat))) ∧
    (get30DayRollingStats dbW9 "u" 30).daysWithData = 2 ∧
    (get30DayRollingStats dbW9 "u" 30).averagePostsPerDay = 15 :=
  ⟨by decide, get30DayRollingStats_days_with_data dbW9 "u" 30 (by decide), by decide, by
    have h := (get30DayRollingStats_days_with_data dbW9 "u" 30 (by decide)).2.2 (by decide)
    have h2 : (get30DayRollingStats dbW9 "u" 30).daysWithData = 2 := by decide
    have h3 : (get30DayRollingStats dbW9 "u" 30).totalPostsViewed = 30 := by decide
    rw [h2, h3] at h
    push_cast at h
    linarith⟩

/-- C10: for a viewer and author with no followee edge between them (for
example an unfollowed author whose posts were viewed earlier),
getPostAuthorStats returns mahoot_number = 0 — indistinguishable from an
explicitly muted followee, whose edge stores mahoot_number 0 and also
yields 0; and such an author still appears in getAllAuthorStats whenever
any view record for (viewer, author) exists. -/
theorem getPostAuthorStats_mahoot_zero (s : DB) (viewer author : String) (today : Nat) :
    ((¬ ∃ e ∈ s.followee_relationships,
        e.user_did = viewer ∧ e.followee_did = author) →
      (getPostAuthorStats s viewer author today).mahoot_number = 0) ∧
    (∀ e, s.followee_relationships.find?
        (fun r => r.user_did == viewer && r.followee_did == author) = some e →
      e.mahoot_number = 0 →
      (getPostAuthorStats s viewer author today).mahoot_number = 0) ∧
    ((∃ r ∈ s.post_statistics, r.viewer_did = viewer ∧ r.author_did = author) →
      author ∈ (getAllAuthorStats s viewer today).map (fun st => st.author_did)) := by
  refine ⟨?_, ?_, ?_⟩
  · intro hne
    have hf : s.followee_relationships.find?
        (fun r => r.user_did == viewer && r.followee_did == author) = none := by
      rw [List.find?_eq_none]
      intro e he hp
      simp only [Bool.and_eq_true, beq_iff_eq] at hp
      exact hne ⟨e, he, hp.1, hp.2⟩
    simp only [getPostAuthorStats, hf]
  · intro e he h0
    simp only [getPostAuthorStats, he, h0]
  · intro ⟨r, hr, h1, h2⟩
    simp only [getAllAuthorStats, List.map_map]
    apply List.mem_map.mpr
    refine ⟨author, ?_, rfl⟩
    apply List.mem_dedup.mpr
    apply List.mem_map.mpr
    refine ⟨r, ?_, h2⟩
    rw [List.mem_filter]
    exact ⟨hr, by simp [h1]⟩

/-- Concrete state for the C10 witness: author "x" has view records but no
followee edge; author "m" is an explicitly muted followee (quota 0) with
view records. -/
def dbW10 : DB :=
  { post := [], user_preferences := []
    followee_relationships := [⟨"v", "m", 0, "x", 0, 0⟩]
    post_statistics := [⟨"at://x/1", "x", "v", 1⟩, ⟨"at://m/1", "m", "v", 1⟩]
    daily_stats := [] }

/-- Witness for C10 at a concrete input. -/
theorem getPostAuthorStats_mahoot_zero_witness :
    (getPostAuthorStats dbW10 "v" "x" 9).mahoot_number = 0 ∧
    (getPostAuthorStats dbW10 "v" "m" 9).mahoot_number = 0 ∧
    "x" ∈ (getAllAuthorStats dbW10 "v" 9).map (fun st => st.author_did) :=
  ⟨(getPostAuthorStats_mahoot_zero dbW10 "v" "x" 9).1 (by decide),
   (getPostAuthorStats_mahoot_zero dbW10 "v" "m" 9).2.1 ⟨"v", "m", 0, "x", 0, 0⟩ (by decide) (by decide),
   (getPostAuthorStats_mahoot_zero dbW10 "v" "x" 9).2.2 ⟨⟨"at://x/1", "x", "v", 1⟩, by decide, by decide, by decide⟩⟩

end Mahoot
